import Mathlib

/-!
Formal model of `weather_chatbot.py`.

The development embeds the day-reference resolution and forecast-filtering
logic of `make_weather_call`, the field rounding of `get_weather`, the
record serialization of the result, and the control flow of the
`run_chatbot` loop.  External services (geocoder, weather API, LLM) are
modelled as parameters.  Calendar dates are proleptic-Gregorian day counts;
the `float` columns of the forecast are modelled as rationals.
-/

namespace WeatherChatbot

/-- Python `str.lower()`, restricted to its ASCII action (the strings the
program compares against are ASCII). -/
def pyLower (s : String) : String :=
  String.mk (s.toList.map Char.toLower)

/-- The `weekdays` dictionary of `make_weather_call`
(`monday ↦ 0`, …, `sunday ↦ 6`). -/
def weekdayIndex? (s : String) : Option Nat :=
  if s = "monday" then some 0
  else if s = "tuesday" then some 1
  else if s = "wednesday" then some 2
  else if s = "thursday" then some 3
  else if s = "friday" then some 4
  else if s = "saturday" then some 5
  else if s = "sunday" then some 6
  else none

/-- A calendar date, as held by a Python `datetime` at midnight. -/
structure Date where
  year : Nat
  month : Nat
  day : Nat
deriving DecidableEq

/-- Gregorian leap-year rule (as used by `datetime`). -/
def isLeap (y : Nat) : Bool :=
  (y % 4 == 0 && y % 100 != 0) || y % 400 == 0

/-- Number of days of month `m` in year `y`. -/
def monthLength (y m : Nat) : Nat :=
  if m = 2 then (if isLeap y then 29 else 28)
  else if m = 4 ∨ m = 6 ∨ m = 9 ∨ m = 11 then 30
  else 31

/-- Days of year `y` that precede month `m`. -/
def daysBeforeMonth (y m : Nat) : Nat :=
  (List.range (m - 1)).foldl (fun a i => a + monthLength y (i + 1)) 0

/-- Proleptic Gregorian day count: Python `date.toordinal() - 1`, so that
0001-01-01 (a Monday) maps to 0 and `toOrdinal d % 7` is Python
`date.weekday()` (Monday = 0). -/
def toOrdinal (d : Date) : Nat :=
  365 * (d.year - 1) + (d.year - 1) / 4 - (d.year - 1) / 100 + (d.year - 1) / 400
    + daysBeforeMonth d.year d.month + (d.day - 1)

/-- Numeric value of a digit character. -/
def digitVal (c : Char) : Nat := c.toNat - 48

/-- CPython `_strptime` number field for `%d` / `%m`: a two-digit value in
`[1, hi]` (leading zero allowed) is preferred, otherwise a single nonzero
digit, mirroring the regex alternation order `3[01]|[12]\d|0[1-9]|[1-9]`
(resp. `1[0-2]|0[1-9]|[1-9]`). -/
def parseNum (hi : Nat) : List Char → Option (Nat × List Char)
  | c1 :: c2 :: rest =>
    if c1.isDigit && c2.isDigit then
      let v := digitVal c1 * 10 + digitVal c2
      if 1 ≤ v && v ≤ hi then some (v, rest)
      else if 1 ≤ digitVal c1 then some (digitVal c1, c2 :: rest)
      else none
    else if c1.isDigit && 1 ≤ digitVal c1 then some (digitVal c1, c2 :: rest)
    else none
  | [c1] =>
    if c1.isDigit && 1 ≤ digitVal c1 then some (digitVal c1, []) else none
  | [] => none

/-- CPython `_strptime` field for `%Y`: exactly four digits. -/
def parse4 : List Char → Option (Nat × List Char)
  | a :: b :: c :: d :: rest =>
    if a.isDigit && b.isDigit && c.isDigit && d.isDigit then
      some (digitVal a * 1000 + digitVal b * 100 + digitVal c * 10 + digitVal d, rest)
    else none
  | _ => none

/-- A literal character of the format string. -/
def expectChar (c : Char) : List Char → Option (List Char)
  | c1 :: rest => if c1 = c then some rest else none
  | [] => none

/-- `strptime(day, "%d.%m.%Y")`, structural part; the whole string must be
consumed (`strptime` raises on unconverted data). Yields `(y, m, d)`. -/
def matchDMY (cs : List Char) : Option (Nat × Nat × Nat) := do
  let (d, cs) ← parseNum 31 cs
  let cs ← expectChar '.' cs
  let (m, cs) ← parseNum 12 cs
  let cs ← expectChar '.' cs
  let (y, cs) ← parse4 cs
  if cs = [] then pure (y, m, d) else none

/-- `strptime(day, "%d.%m")`: the year defaults to 1900. -/
def matchDM (cs : List Char) : Option (Nat × Nat × Nat) := do
  let (d, cs) ← parseNum 31 cs
  let cs ← expectChar '.' cs
  let (m, cs) ← parseNum 12 cs
  if cs = [] then pure (1900, m, d) else none

/-- `strptime(day, "%Y-%m-%d")`. -/
def matchYMD (cs : List Char) : Option (Nat × Nat × Nat) := do
  let (y, cs) ← parse4 cs
  let cs ← expectChar '-' cs
  let (m, cs) ← parseNum 12 cs
  let cs ← expectChar '-' cs
  let (d, cs) ← parseNum 31 cs
  if cs = [] then pure (y, m, d) else none

/-- Validation performed by the `datetime` constructor inside `strptime`
(year in `[1, 9999]`, month in `[1, 12]`, day fits the month). -/
def validDate (y m d : Nat) : Bool :=
  1 ≤ y && y ≤ 9999 && 1 ≤ m && m ≤ 12 && 1 ≤ d && d ≤ monthLength y m

/-- One `strptime` attempt: structural match, then date validation; a
`ValueError` from either step makes the attempt fail. -/
def tryFmt (f : List Char → Option (Nat × Nat × Nat)) (cs : List Char) : Option Date :=
  match f cs with
  | some (y, m, d) => if validDate y m d then some ⟨y, m, d⟩ else none
  | none => none

/-- The `for datestr in ["%d.%m.%Y", "%d.%m", "%Y-%m-%d"]` loop of
`make_weather_call`: the first format that parses wins. -/
def tryParseDate (s : String) : Option Date :=
  tryFmt matchDMY s.toList <|> tryFmt matchDM s.toList <|> tryFmt matchYMD s.toList

/-- `datetime.datetime.today()`: a calendar date plus the microseconds
elapsed since that day's midnight. -/
structure Now where
  date : Date
  us : Nat

/-- Microseconds per day. -/
def usPerDay : Nat := 86400000000

/-- `(date_obj - today).days` where `date_obj` is the parsed date at
midnight: Python `timedelta` normalises `days` by floor division. -/
def deltaDays (now : Now) (d : Date) : Int :=
  Int.fdiv (((toOrdinal d : Int) - (toOrdinal now.date : Int)) * usPerDay - now.us) usPerDay

/-- Outcome of one iteration of the `for day in days` loop: an offset is
appended, a message is appended, or the entry is skipped. -/
inductive DayRes where
  | offset (o : Nat)
  | msg (m : String)
  | skip
deriving DecidableEq

/-- Body of the `for day in days` loop for an already-lowercased entry. -/
def resolveDayCore (now : Now) (day : String) : DayRes :=
  match weekdayIndex? day with
  | some w => .offset ((Int.emod ((w : Int) - ((toOrdinal now.date % 7 : Nat) : Int)) 7).toNat)
  | none =>
    match tryParseDate day with
    | none => .skip
    | some dt =>
      let delta := deltaDays now dt
      if delta < 0 then .msg (day ++ " is in the past.")
      else if 6 < delta then .msg (day ++ " is too far in the future.")
      else .offset delta.toNat

/-- Full loop body: `day = day.lower()` first. -/
def resolveDay (now : Now) (day : String) : DayRes :=
  resolveDayCore now (pyLower day)

/-- Accumulation of `days_to_get_weather` (first component) and `messages`
(second component) over the whole `days` list, in iteration order. -/
def resolveDays (now : Now) : List String → List Nat × List String
  | [] => ([], [])
  | d :: rest =>
    let r := resolveDays now rest
    match resolveDay now d with
    | .offset o => (o :: r.1, r.2)
    | .msg m => (r.1, m :: r.2)
    | .skip => r

/-- A geocoded location (`location.latitude`, `location.longitude`). -/
structure Location where
  latitude : Rat
  longitude : Rat

/-- One row of the daily forecast DataFrame built by `get_weather`, in
column order. -/
structure Row where
  date : Date
  temperature_2m_max : Rat
  precipitation_sum : Rat
  precipitation_hours : Rat
  precipitation_probability_max : Rat
  wind_speed_10m_max : Rat
  wind_gusts_10m_max : Rat
deriving DecidableEq

/-- A row after `make_weather_call` appends the `day_of_week` column. -/
structure RowOut extends Row where
  day_of_week : String
deriving DecidableEq

/-- `np.round` at 0 decimals: round half to even. -/
def npRound (q : Rat) : Rat :=
  if q - (Rat.floor q : Rat) < 1 / 2 then (Rat.floor q : Rat)
  else if 1 / 2 < q - (Rat.floor q : Rat) then ((Rat.floor q + 1 : Int) : Rat)
  else if Rat.floor q % 2 = 0 then (Rat.floor q : Rat)
  else ((Rat.floor q + 1 : Int) : Rat)

/-- The raw daily arrays returned by the OpenMeteo response: columns of a
common length, indexed positionally. -/
structure RawDaily where
  len : Nat
  dates : Nat → Date
  temperature_2m_max : Nat → Rat
  precipitation_sum : Nat → Rat
  precipitation_hours : Nat → Rat
  precipitation_probability_max : Nat → Rat
  wind_speed_10m_max : Nat → Rat
  wind_gusts_10m_max : Nat → Rat

/-- `get_weather`, modelled from the response columns onwards: it builds the
daily DataFrame, applying `np.round` to every column except
`precipitation_probability_max`. -/
def get_weather (raw : RawDaily) : List Row :=
  (List.range raw.len).map (fun i =>
    { date := raw.dates i
      temperature_2m_max := npRound (raw.temperature_2m_max i)
      precipitation_sum := npRound (raw.precipitation_sum i)
      precipitation_hours := npRound (raw.precipitation_hours i)
      precipitation_probability_max := raw.precipitation_probability_max i
      wind_speed_10m_max := npRound (raw.wind_speed_10m_max i)
      wind_gusts_10m_max := npRound (raw.wind_gusts_10m_max i) })

/-- Weekday names as produced by pandas `day_name()` (and the `weekdays`
dictionary of `run_chatbot`), indexed by Python `weekday()`. -/
def dayName : Nat → String
  | 0 => "Monday"
  | 1 => "Tuesday"
  | 2 => "Wednesday"
  | 3 => "Thursday"
  | 4 => "Friday"
  | 5 => "Saturday"
  | _ => "Sunday"

/-- `df.loc[days_to_get_weather]`: row lookup by positional label, one row
per requested label in order (a missing label raises `KeyError`, modelled
as `none`). -/
def selectRows (idxs : List Nat) (rows : List Row) : Option (List Row) :=
  match idxs with
  | [] => some []
  | i :: t =>
    match rows[i]?, selectRows t rows with
    | some r, some rest => some (r :: rest)
    | _, _ => none

/-- The `day_of_week` column appended to the filtered frame, computed from
each kept row's own date. -/
def attachDOW (rows : List Row) : List RowOut :=
  rows.map (fun r => { toRow := r, day_of_week := dayName (toOrdinal r.date % 7) })

/-- Two-digit zero-padded decimal. -/
def pad2 (n : Nat) : String := if n < 10 then "0" ++ toString n else toString n

/-- Four-digit zero-padded decimal. -/
def pad4 (n : Nat) : String :=
  if n < 10 then "000" ++ toString n
  else if n < 100 then "00" ++ toString n
  else if n < 1000 then "0" ++ toString n
  else toString n

/-- ISO rendering of a midnight date, as pandas `to_json(date_format='iso')`
prints it. -/
def isoDate (d : Date) : String :=
  pad4 d.year ++ "-" ++ pad2 d.month ++ "-" ++ pad2 d.day ++ "T00:00:00.000"

/-- JSON rendering of a numeric cell (decimal formatting of non-integral
rationals is abstracted; every rounded column is integral). -/
def jsonNumber (q : Rat) : String :=
  if q.den = 1 then toString q.num ++ ".0" else toString q.num ++ "/" ++ toString q.den

/-- One record of the `orient='records'` serialization, fields in the
DataFrame's column order with `day_of_week` last. -/
def rowJson (r : RowOut) : String :=
  "\x7b\"date\":\"" ++ isoDate r.date
    ++ "\",\"temperature_2m_max\":" ++ jsonNumber r.temperature_2m_max
    ++ ",\"precipitation_sum\":" ++ jsonNumber r.precipitation_sum
    ++ ",\"precipitation_hours\":" ++ jsonNumber r.precipitation_hours
    ++ ",\"precipitation_probability_max\":" ++ jsonNumber r.precipitation_probability_max
    ++ ",\"wind_speed_10m_max\":" ++ jsonNumber r.wind_speed_10m_max
    ++ ",\"wind_gusts_10m_max\":" ++ jsonNumber r.wind_gusts_10m_max
    ++ ",\"day_of_week\":\"" ++ r.day_of_week ++ "\"\x7d"

/-- `filtered_df.to_json(orient='records', date_format='iso')`: a JSON array
of records. -/
def serializeRecords (rows : List RowOut) : String :=
  "[" ++ String.intercalate "," (rows.map rowJson) ++ "]"

/-- Outcome of `geolocator.geocode(place)`: an exception, `None`, or a
location. -/
inductive GeoResult where
  | geoError
  | geoNone
  | geoFound (loc : Location)

/-- Result of `make_weather_call`: a plain-text message, the
`{"error": messages}` dictionary, the JSON string of the filtered forecast,
or an uncaught exception (pandas `KeyError` on a missing row label). -/
inductive WResult where
  | text (s : String)
  | errorDict (msgs : List String)
  | json (s : String)
  | raised
deriving DecidableEq

/-- `make_weather_call`, with the geocoder outcome and the weather fetch
(the `try: get_weather(...)` body, `none` for an exception) as parameters. -/
def make_weather_call (geo : GeoResult) (now : Now)
    (fetch : Location → Option (List Row)) (days : List String) : WResult :=
  match geo with
  | .geoError => .text "The location could not be found due to an error with the Geolocation."
  | .geoNone => .text "The given location could not be found."
  | .geoFound loc =>
    let r := resolveDays now days
    let offs := if r.1 = [] then [0, 1, 2, 3, 4, 5, 6] else r.1
    if r.2 ≠ [] then .errorDict r.2
    else
      match fetch loc with
      | none => .text "Could not retrieve weather data."
      | some rows =>
        match selectRows offs rows with
        | none => .raised
        | some sel => .json (serializeRecords (attachDOW sel))

/-- One tool call emitted by the LLM: its name (looked up, lowercased, in
the tool dictionary) and the environment of the `make_weather_call`
invocation it triggers. -/
structure ToolCall where
  name : String
  geo : GeoResult
  now : Now
  fetch : Location → Option (List Row)
  days : List String

/-- One iteration's external behaviour: the user input, and what the LLM
does — `none` when `llm.invoke` raises (caught: an error is printed and
the loop continues), `some tcs` for a response carrying the tool calls
`tcs` (possibly none). -/
structure Turn where
  input : String
  llm : Option (List ToolCall)

/-- How the `run_chatbot` loop ends on a finite stream of iterations. -/
inductive LoopExit where
  | quit
  | crashed
  | exhausted
deriving DecidableEq

/-- The tool-dispatch block of `run_chatbot`: for each tool call, the
lowercased name is looked up in the dictionary holding only
`make_weather_call` — `KeyError` for any other name — and the tool is
invoked, with exceptions propagating out of it (the modelled
`WResult.raised`). The block sits outside any `try`, so `none` models an
uncaught exception escaping the loop body. -/
def dispatchToolCalls : List ToolCall → Option Unit
  | [] => some ()
  | tc :: rest =>
    if pyLower tc.name = "make_weather_call" then
      match make_weather_call tc.geo tc.now tc.fetch tc.days with
      | .raised => none
      | _ => dispatchToolCalls rest
    else none

/-- Whether an iteration's body raises an uncaught exception. -/
def turnCrashes (t : Turn) : Bool :=
  match t.llm with
  | none => false
  | some tcs => (dispatchToolCalls tcs).isNone

/-- Control flow of the `run_chatbot` loop over a finite stream of
iterations: the iterations entered (a crashed one counts as entered) and
how the loop ended. The quit check comes first; an `llm.invoke` exception
is caught (`continue`); an exception from the tool-dispatch block is not
caught and terminates the loop; the second `llm.invoke` and the printing
never exit and are abstracted. An exhausted stream yields `.exhausted`. -/
def run_chatbot : List Turn → Nat × LoopExit
  | [] => (0, .exhausted)
  | t :: rest =>
    if pyLower t.input = "exit" then (0, .quit)
    else
      match t.llm with
      | none =>
        let r := run_chatbot rest
        (r.1 + 1, r.2)
      | some tcs =>
        match dispatchToolCalls tcs with
        | none => (1, .crashed)
        | some _ =>
          let r := run_chatbot rest
          (r.1 + 1, r.2)

/-- A concrete location used in witnesses. -/
def loc0 : Location := ⟨5252 / 100, 13405 / 1000⟩

/-- A concrete `today`: Monday 2026-10-12, at 12:00:00 (43 200 000 000 µs
past midnight). -/
def now0 : Now := ⟨⟨2026, 10, 12⟩, 43200000000⟩

/-- A concrete `today` at exactly midnight, Monday 2026-10-12. -/
def now0mid : Now := ⟨⟨2026, 10, 12⟩, 0⟩

/-- Concrete raw forecast columns for 2026-10-12 … 2026-10-18. -/
def raw0 : RawDaily where
  len := 7
  dates := fun i => ⟨2026, 10, 12 + i⟩
  temperature_2m_max := fun i => (i : Rat) + 1 / 2
  precipitation_sum := fun i => (i : Rat) / 4
  precipitation_hours := fun i => (i : Rat)
  precipitation_probability_max := fun i => (i : Rat) * 10 + 1 / 2
  wind_speed_10m_max := fun i => (i : Rat) + 7 / 10
  wind_gusts_10m_max := fun i => (i : Rat) * 2 + 1 / 4

/-- A default row (never observed under the index-in-bounds hypotheses). -/
def row0 : Row := ⟨⟨1, 1, 1⟩, 0, 0, 0, 0, 0, 0⟩

/-- A concrete 7-row forecast for 2026-10-12 … 2026-10-18, used in
witnesses (fields: max temperature, precipitation sum, precipitation
hours, max precipitation probability, max wind speed, max wind gusts). -/
def rows0 : List Row :=
  [⟨⟨2026, 10, 12⟩, 15, 0, 0, 55, 10, 20⟩,
   ⟨⟨2026, 10, 13⟩, 16, 1, 2, 60, 11, 21⟩,
   ⟨⟨2026, 10, 14⟩, 17, 2, 3, 65, 12, 22⟩,
   ⟨⟨2026, 10, 15⟩, 18, 3, 4, 70, 13, 23⟩,
   ⟨⟨2026, 10, 16⟩, 19, 4, 5, 75, 14, 24⟩,
   ⟨⟨2026, 10, 17⟩, 20, 5, 6, 80, 15, 25⟩,
   ⟨⟨2026, 10, 18⟩, 21, 6, 7, 85, 16, 26⟩]

example : rows0.length = 7 := by decide
example : resolveDays now0 ["monday"] = ([0], []) := by decide
example : resolveDays now0 ["2026-10-12"] = ([], ["2026-10-12 is in the past."]) := by decide
example : resolveDays now0mid ["2026-10-12"] = ([0], []) := by decide
example : resolveDays now0 ["2026-10-19"] = ([6], []) := by decide
example : resolveDays now0 ["wednesday", "25.12"] = ([2], ["25.12 is in the past."]) := by decide
example :
    make_weather_call (.geoFound loc0) now0 (fun _ => some rows0) ["2026-10-12"]
      = .errorDict ["2026-10-12 is in the past."] := by decide

example : tryParseDate "01.01.2020" = some ⟨2020, 1, 1⟩ := by decide
example : tryParseDate "2026-10-12" = some ⟨2026, 10, 12⟩ := by decide
example : tryParseDate "25.12" = some ⟨1900, 12, 25⟩ := by decide
example : tryParseDate "29.02" = none := by decide
example : tryParseDate "29.02.2024" = some ⟨2024, 2, 29⟩ := by decide
example : tryParseDate "31.04.2021" = none := by decide
example : tryParseDate "1.2" = some ⟨1900, 2, 1⟩ := by decide
example : tryParseDate "monday" = none := by decide
example : toOrdinal ⟨2026, 10, 12⟩ % 7 = 0 := by decide

theorem resolveDay_offset_le_six (now : Now) (day : String) (o : Nat)
    (h : resolveDay now day = .offset o) : o ≤ 6 := by
  unfold resolveDay resolveDayCore at h
  split at h
  · rename_i w hw
    simp only [DayRes.offset.injEq] at h
    subst h
    have h1 : Int.emod ((w : Int) - ((toOrdinal now.date % 7 : Nat) : Int)) 7 < 7 :=
      Int.emod_lt_of_pos _ (by norm_num)
    have h2 : 0 ≤ Int.emod ((w : Int) - ((toOrdinal now.date % 7 : Nat) : Int)) 7 :=
      Int.emod_nonneg _ (by norm_num)
    omega
  · split at h
    · exact absurd h (by simp)
    · rename_i dt hdt
      simp only at h
      split at h
      · exact absurd h (by simp)
      · split at h
        · exact absurd h (by simp)
        · rename_i hlt hgt
          simp only [DayRes.offset.injEq] at h
          subst h
          omega

theorem resolveDays_cons (now : Now) (d : String) (rest : List String) :
    resolveDays now (d :: rest) =
      match resolveDay now d with
      | .offset o => (o :: (resolveDays now rest).1, (resolveDays now rest).2)
      | .msg m => ((resolveDays now rest).1, m :: (resolveDays now rest).2)
      | .skip => resolveDays now rest := rfl

/-- C1: every day reference accepted by `make_weather_call` (a recognized
weekday name, or a date string passing validation) resolves to an integer
offset from today lying in the interval `[0, 6]`: every element appended to
`days_to_get_weather` is at most 6 (it is a `Nat`, hence at least 0). -/
theorem c1_resolved_offsets_in_range (now : Now) (days : List String) (o : Nat)
    (h : o ∈ (resolveDays now days).1) : o ≤ 6 := by
  induction days with
  | nil => simp [resolveDays] at h
  | cons d rest ih =>
    rw [resolveDays_cons] at h
    cases hd : resolveDay now d with
    | offset o2 =>
      rw [hd] at h
      simp only at h
      rcases List.mem_cons.mp h with h | h
      · rw [h]; exact resolveDay_offset_le_six now d o2 hd
      · exact ih h
    | msg m => rw [hd] at h; exact ih h
    | skip => rw [hd] at h; exact ih h

theorem c1_resolved_offsets_in_range_witness :
    (0 ∈ (resolveDays now0 ["monday"]).1) ∧ 0 ≤ 6 :=
  ⟨by decide, c1_resolved_offsets_in_range now0 ["monday"] 0 (by decide)⟩

theorem resolveDays_middle_skip (now : Now) (day : String)
    (h : resolveDay now day = .skip) (l1 l2 : List String) :
    resolveDays now (l1 ++ day :: l2) = resolveDays now (l1 ++ l2) := by
  induction l1 with
  | nil => simp only [List.nil_append, resolveDays_cons, h]
  | cons d t ih =>
    rw [List.cons_append, List.cons_append, resolveDays_cons, resolveDays_cons, ih]

/-- C3: a day reference that is neither a recognized weekday name nor
parseable under any of the three date formats is silently skipped: it
contributes no offset and no message, and removing it from the `days` list
changes neither the resolution outcome nor the result of
`make_weather_call`. -/
theorem c3_unparseable_silently_skipped (day : String)
    (h1 : weekdayIndex? (pyLower day) = none)
    (h2 : tryParseDate (pyLower day) = none)
    (geo : GeoResult) (now : Now) (fetch : Location → Option (List Row))
    (days1 days2 : List String) :
    resolveDay now day = .skip
  ∧ resolveDays now (days1 ++ day :: days2) = resolveDays now (days1 ++ days2)
  ∧ make_weather_call geo now fetch (days1 ++ day :: days2)
      = make_weather_call geo now fetch (days1 ++ days2) := by
  have hskip : resolveDay now day = .skip := by
    simp [resolveDay, resolveDayCore, h1, h2]
  refine ⟨hskip, resolveDays_middle_skip now day hskip days1 days2, ?_⟩
  cases geo with
  | geoError => rfl
  | geoNone => rfl
  | geoFound loc =>
    simp only [make_weather_call, resolveDays_middle_skip now day hskip days1 days2]

theorem c3_unparseable_silently_skipped_witness :
    (weekdayIndex? (pyLower "Notaday") = none ∧ tryParseDate (pyLower "Notaday") = none)
  ∧ (resolveDay now0 "Notaday" = .skip
     ∧ resolveDays now0 (["monday"] ++ "Notaday" :: ["tuesday"])
         = resolveDays now0 (["monday"] ++ ["tuesday"])
     ∧ make_weather_call (.geoFound loc0) now0 (fun _ => some rows0)
           (["monday"] ++ "Notaday" :: ["tuesday"])
         = make_weather_call (.geoFound loc0) now0 (fun _ => some rows0)
           (["monday"] ++ ["tuesday"])) :=
  ⟨⟨by decide, by decide⟩,
    c3_unparseable_silently_skipped "Notaday" (by decide) (by decide)
      (.geoFound loc0) now0 (fun _ => some rows0) ["monday"] ["tuesday"]⟩

theorem resolveDays_middle_congr (now : Now) (a b : String)
    (h : resolveDay now a = resolveDay now b) (l1 l2 : List String) :
    resolveDays now (l1 ++ a :: l2) = resolveDays now (l1 ++ b :: l2) := by
  induction l1 with
  | nil => simp only [List.nil_append, resolveDays_cons, h]
  | cons d t ih =>
    rw [List.cons_append, List.cons_append, resolveDays_cons, resolveDays_cons, ih]

/-- C10: day-reference resolution is case-insensitive: replacing an entry by
any spelling with the same lowercasing yields the same resolved offsets, the
same rejection messages, and the same overall result of
`make_weather_call`. -/
theorem c10_case_insensitive (a b : String) (h : pyLower a = pyLower b)
    (geo : GeoResult) (now : Now) (fetch : Location → Option (List Row))
    (days1 days2 : List String) :
    resolveDays now (days1 ++ a :: days2) = resolveDays now (days1 ++ b :: days2)
  ∧ make_weather_call geo now fetch (days1 ++ a :: days2)
      = make_weather_call geo now fetch (days1 ++ b :: days2) := by
  have hab : resolveDay now a = resolveDay now b := by
    simp only [resolveDay, h]
  refine ⟨resolveDays_middle_congr now a b hab days1 days2, ?_⟩
  cases geo with
  | geoError => rfl
  | geoNone => rfl
  | geoFound loc =>
    simp only [make_weather_call, resolveDays_middle_congr now a b hab days1 days2]

theorem c10_case_insensitive_witness :
    pyLower "MONDAY" = pyLower "Monday"
  ∧ (resolveDays now0 ([] ++ "MONDAY" :: ["25.12.2030"])
       = resolveDays now0 ([] ++ "Monday" :: ["25.12.2030"])
     ∧ make_weather_call (.geoFound loc0) now0 (fun _ => some rows0)
           ([] ++ "MONDAY" :: ["25.12.2030"])
         = make_weather_call (.geoFound loc0) now0 (fun _ => some rows0)
           ([] ++ "Monday" :: ["25.12.2030"])) :=
  ⟨by decide,
    c10_case_insensitive "MONDAY" "Monday" (by decide)
      (.geoFound loc0) now0 (fun _ => some rows0) [] ["25.12.2030"]⟩

/-- C9: as soon as at least one date reference was rejected with a message,
`make_weather_call` returns the dictionary of all accumulated rejection
messages, and performs no weather fetch at all: the result is the same for
every fetch outcome, even when other references resolved to valid
offsets. -/
theorem c9_rejections_return_error_without_fetch (now : Now) (days : List String)
    (h : (resolveDays now days).2 ≠ []) (loc : Location)
    (fetch : Location → Option (List Row)) :
    make_weather_call (.geoFound loc) now fetch days
      = .errorDict (resolveDays now days).2 := by
  simp only [make_weather_call]
  rw [if_pos h]

theorem c9_rejections_return_error_without_fetch_witness :
    (resolveDays now0 ["monday", "01.01.2020"]).2 ≠ []
  ∧ make_weather_call (.geoFound loc0) now0 (fun _ => none) ["monday", "01.01.2020"]
      = .errorDict (resolveDays now0 ["monday", "01.01.2020"]).2 :=
  ⟨by decide,
    c9_rejections_return_error_without_fetch now0 ["monday", "01.01.2020"]
      (by decide) loc0 (fun _ => none)⟩

/-- C5: a geocoder exception and a geocoder miss (`None`) are reported by
`make_weather_call` as two distinct plain-text messages, returned as the
result value (never raised), independently of the rest of the input. -/
theorem c5_geocode_errors_distinct_text (now : Now)
    (fetch : Location → Option (List Row)) (days : List String) :
    make_weather_call .geoError now fetch days
      = .text "The location could not be found due to an error with the Geolocation."
  ∧ make_weather_call .geoNone now fetch days
      = .text "The given location could not be found."
  ∧ ("The location could not be found due to an error with the Geolocation." : String)
      ≠ "The given location could not be found." :=
  ⟨rfl, rfl, by decide⟩

/-- C2: the claim that a parsed date equal to today is never rejected fails
on the code. `make_weather_call` compares the parsed midnight `datetime`
against `datetime.today()` including its time of day, so at 12:00 on
2026-10-12 the reference "2026-10-12" — which parses to today's own date —
gets `(date_obj - today).days = -1` and is rejected as "in the past", while
"2026-10-19", seven days ahead, gets `delta = 6` and is accepted. -/
theorem c2_today_rejected_time_of_day_bug :
    make_weather_call (.geoFound loc0) now0 (fun _ => some rows0) ["2026-10-12"]
      = .errorDict ["2026-10-12 is in the past."]
  ∧ tryParseDate "2026-10-12" = some now0.date
  ∧ deltaDays now0 now0.date = -1
  ∧ resolveDay now0 "2026-10-19" = .offset 6
  ∧ toOrdinal ⟨2026, 10, 19⟩ = toOrdinal now0.date + 7
  ∧ resolveDay now0mid "2026-10-12" = .offset 0 := by
  refine ⟨by decide, by decide, by decide, by decide, by decide, by decide⟩

theorem run_chatbot_cons (t : Turn) (rest : List Turn) :
    run_chatbot (t :: rest) =
      if pyLower t.input = "exit" then (0, .quit)
      else
        match t.llm with
        | none => ((run_chatbot rest).1 + 1, (run_chatbot rest).2)
        | some tcs =>
          match dispatchToolCalls tcs with
          | none => (1, .crashed)
          | some _ => ((run_chatbot rest).1 + 1, (run_chatbot rest).2) := rfl

/-- C8 (counterexample): the chat loop can exit on a non-quit input. The
tool-dispatch block is outside any `try`: an LLM response naming a tool
other than `make_weather_call` raises `KeyError` in the dictionary lookup,
and a tool call whose `make_weather_call` itself raises (here the `.loc`
`KeyError` on a short forecast) propagates; either one terminates the loop
although the input was not the quit command. -/
theorem c8_nonquit_crash_counterexample :
    run_chatbot [⟨"weather tomorrow",
        some [⟨"weather_tool", .geoFound loc0, now0, fun _ => some rows0, ["monday"]⟩]⟩]
      = (1, .crashed)
  ∧ pyLower "weather tomorrow" ≠ "exit"
  ∧ run_chatbot [⟨"weather tomorrow",
        some [⟨"make_weather_call", .geoFound loc0, now0, fun _ => some [], ["monday"]⟩]⟩]
      = (1, .crashed)
  ∧ make_weather_call (.geoFound loc0) now0 (fun _ => some []) ["monday"] = .raised :=
  ⟨by decide, by decide, by decide, by decide⟩

/-- C8 (amended): the chat loop exits normally (the quit `break`) exactly
when the first iteration that is not a completed round has a quit input; a
non-quit iteration whose body raises no uncaught exception performs one
request/response round and continues; an iteration whose tool dispatch
raises (unknown tool name, or an exception from the tool call itself)
terminates the loop abnormally on a non-quit input. -/
theorem c8_loop_exit_characterization (turns : List Turn) :
    ((run_chatbot turns).2 = .quit ↔
      ∃ t, (turns.dropWhile
              (fun u => !(pyLower u.input == "exit") && !(turnCrashes u))).head? = some t
        ∧ pyLower t.input = "exit")
  ∧ ((run_chatbot turns).2 = .crashed ↔
      ∃ t, (turns.dropWhile
              (fun u => !(pyLower u.input == "exit") && !(turnCrashes u))).head? = some t
        ∧ pyLower t.input ≠ "exit")
  ∧ (run_chatbot turns).1
      = (turns.takeWhile
            (fun u => !(pyLower u.input == "exit") && !(turnCrashes u))).length
        + (if (run_chatbot turns).2 = .crashed then 1 else 0) := by
  induction turns with
  | nil => simp [run_chatbot]
  | cons t rest ih =>
    by_cases hq : pyLower t.input = "exit"
    · have hp : (!(pyLower t.input == "exit") && !(turnCrashes t)) = false := by
        simp [hq]
      rw [run_chatbot_cons, if_pos hq]
      simp [List.dropWhile_cons, List.takeWhile_cons, hp, hq]
    · have hb : (pyLower t.input == "exit") = false := by
        simp [hq]
      by_cases hc : turnCrashes t = true
      · have hp : (!(pyLower t.input == "exit") && !(turnCrashes t)) = false := by
          simp [hb, hc]
        have hrun : run_chatbot (t :: rest) = (1, .crashed) := by
          rw [run_chatbot_cons, if_neg hq]
          unfold turnCrashes at hc
          cases hl : t.llm with
          | none => rw [hl] at hc; simp at hc
          | some tcs =>
            rw [hl] at hc
            simp only [Option.isNone_iff_eq_none] at hc
            simp only [hc]
        rw [hrun]
        simp [List.dropWhile_cons, List.takeWhile_cons, hp, hq]
      · have hp : (!(pyLower t.input == "exit") && !(turnCrashes t)) = true := by
          simp [hb, hc]
        have hrun : run_chatbot (t :: rest)
            = ((run_chatbot rest).1 + 1, (run_chatbot rest).2) := by
          rw [run_chatbot_cons, if_neg hq]
          unfold turnCrashes at hc
          cases hl : t.llm with
          | none => rfl
          | some tcs =>
            rw [hl] at hc
            simp only [Option.isNone_iff_eq_none] at hc
            cases hd : dispatchToolCalls tcs with
            | none => exact absurd hd hc
            | some u => simp only [hd]
        rw [hrun]
        simp only [List.dropWhile_cons, List.takeWhile_cons, hp, if_true, List.length_cons]
        refine ⟨ih.1, ih.2.1, ?_⟩
        rw [ih.2.2]
        by_cases hcr : (run_chatbot rest).2 = .crashed <;> simp [hcr]

theorem rat_floor_eq_intFloor (q : Rat) : Rat.floor q = ⌊q⌋ := by
  have h1 : Rat.floor q ≤ ⌊q⌋ := Int.le_floor.mpr (Rat.le_floor.mp le_rfl)
  have h2 : ⌊q⌋ ≤ Rat.floor q := Rat.le_floor.mpr (Int.floor_le q)
  omega

theorem npRound_intCast (q : Rat) : ∃ z : Int, npRound q = (z : Rat) := by
  unfold npRound
  split_ifs with h1 h2 h3
  · exact ⟨Rat.floor q, rfl⟩
  · exact ⟨Rat.floor q + 1, rfl⟩
  · exact ⟨Rat.floor q, rfl⟩
  · exact ⟨Rat.floor q + 1, rfl⟩

theorem npRound_near (q : Rat) : |npRound q - q| ≤ 1 / 2 := by
  unfold npRound
  rw [rat_floor_eq_intFloor]
  have hf1 : ((⌊q⌋ : Int) : Rat) ≤ q := Int.floor_le q
  have hf2 : q < ((⌊q⌋ : Int) : Rat) + 1 := Int.lt_floor_add_one q
  split_ifs with h1 h2 h3 <;> rw [abs_le] <;> push_cast <;> constructor <;> linarith

theorem get_weather_getD (raw : RawDaily) (i : Nat) (h : i < raw.len) :
    (get_weather raw).getD i row0 =
      { date := raw.dates i
        temperature_2m_max := npRound (raw.temperature_2m_max i)
        precipitation_sum := npRound (raw.precipitation_sum i)
        precipitation_hours := npRound (raw.precipitation_hours i)
        precipitation_probability_max := raw.precipitation_probability_max i
        wind_speed_10m_max := npRound (raw.wind_speed_10m_max i)
        wind_gusts_10m_max := npRound (raw.wind_gusts_10m_max i) } := by
  unfold get_weather
  rw [List.getD_eq_getElem?_getD, List.getElem?_map, List.getElem?_range h]
  rfl

/-- C6: in every forecast row built by `get_weather`, max temperature,
precipitation sum, precipitation hours, max wind speed and max wind gusts
are each the `np.round` of the raw value — an integer within one half of
it — while max precipitation probability is passed through unrounded. -/
theorem c6_rounded_fields (raw : RawDaily) (i : Nat) (h : i < raw.len) :
    ((get_weather raw).getD i row0).temperature_2m_max = npRound (raw.temperature_2m_max i)
  ∧ ((get_weather raw).getD i row0).precipitation_sum = npRound (raw.precipitation_sum i)
  ∧ ((get_weather raw).getD i row0).precipitation_hours = npRound (raw.precipitation_hours i)
  ∧ ((get_weather raw).getD i row0).wind_speed_10m_max = npRound (raw.wind_speed_10m_max i)
  ∧ ((get_weather raw).getD i row0).wind_gusts_10m_max = npRound (raw.wind_gusts_10m_max i)
  ∧ ((get_weather raw).getD i row0).precipitation_probability_max
      = raw.precipitation_probability_max i
  ∧ (∀ q : Rat, (∃ z : Int, npRound q = (z : Rat)) ∧ |npRound q - q| ≤ 1 / 2) := by
  rw [get_weather_getD raw i h]
  exact ⟨rfl, rfl, rfl, rfl, rfl, rfl, fun q => ⟨npRound_intCast q, npRound_near q⟩⟩

theorem c6_rounded_fields_witness :
    0 < raw0.len
  ∧ (((get_weather raw0).getD 0 row0).temperature_2m_max = npRound (raw0.temperature_2m_max 0)
  ∧ ((get_weather raw0).getD 0 row0).precipitation_sum = npRound (raw0.precipitation_sum 0)
  ∧ ((get_weather raw0).getD 0 row0).precipitation_hours = npRound (raw0.precipitation_hours 0)
  ∧ ((get_weather raw0).getD 0 row0).wind_speed_10m_max = npRound (raw0.wind_speed_10m_max 0)
  ∧ ((get_weather raw0).getD 0 row0).wind_gusts_10m_max = npRound (raw0.wind_gusts_10m_max 0)
  ∧ ((get_weather raw0).getD 0 row0).precipitation_probability_max
      = raw0.precipitation_probability_max 0
  ∧ (∀ q : Rat, (∃ z : Int, npRound q = (z : Rat)) ∧ |npRound q - q| ≤ 1 / 2)) :=
  ⟨by decide, c6_rounded_fields raw0 0 (by decide)⟩

theorem selectRows_range7 (rows : List Row) (h : rows.length = 7) :
    selectRows [0, 1, 2, 3, 4, 5, 6] rows = some rows := by
  rcases rows with _ | ⟨a, rows⟩; · simp at h
  rcases rows with _ | ⟨b, rows⟩; · simp at h
  rcases rows with _ | ⟨c, rows⟩; · simp at h
  rcases rows with _ | ⟨d, rows⟩; · simp at h
  rcases rows with _ | ⟨e, rows⟩; · simp at h
  rcases rows with _ | ⟨f, rows⟩; · simp at h
  rcases rows with _ | ⟨g, rows⟩; · simp at h
  rcases rows with _ | ⟨x, rows⟩
  · rfl
  · simp at h

/-- C4 (corrected): the 7-day default only reaches the output when no entry
was rejected. If the `days` list yields no valid resolved reference and no
rejection message (every entry skipped, or the list empty), the forecast is
filtered to offsets 0 through 6; when an entry was rejected, an error
dictionary is returned instead and no forecast is produced. -/
theorem c4_no_valid_reference_defaults_to_week (now : Now) (days : List String)
    (loc : Location) (rows : List Row)
    (hres : resolveDays now days = ([], []))
    (hlen : rows.length = 7) :
    make_weather_call (.geoFound loc) now (fun _ => some rows) days
      = .json (serializeRecords (attachDOW rows)) := by
  simp [make_weather_call, hres, selectRows_range7 rows hlen]

theorem c4_no_valid_reference_defaults_to_week_witness :
    (resolveDays now0 ["gibberish"] = ([], []) ∧ rows0.length = 7)
  ∧ make_weather_call (.geoFound loc0) now0 (fun _ => some rows0) ["gibberish"]
      = .json (serializeRecords (attachDOW rows0)) :=
  ⟨⟨by decide, by decide⟩,
    c4_no_valid_reference_defaults_to_week now0 ["gibberish"] loc0 rows0
      (by decide) (by decide)⟩

/-- C4 (counterexample): with every entry of the `days` list rejected (here
a past date), `make_weather_call` does not default to all 7 days: it
returns the error dictionary, not the forecast filtered to offsets 0–6. -/
theorem c4_all_rejected_no_default_counterexample :
    make_weather_call (.geoFound loc0) now0 (fun _ => some rows0) ["01.01.2020"]
      = .errorDict ["01.01.2020 is in the past."]
  ∧ make_weather_call (.geoFound loc0) now0 (fun _ => some rows0) ["01.01.2020"]
      ≠ .json (serializeRecords (attachDOW rows0)) := by
  have h1 : make_weather_call (.geoFound loc0) now0 (fun _ => some rows0) ["01.01.2020"]
      = .errorDict ["01.01.2020 is in the past."] := by decide
  exact ⟨h1, by rw [h1]; simp⟩

theorem selectRows_spec (idxs : List Nat) (rows : List Row) (sel : List Row)
    (h : selectRows idxs rows = some sel) :
    sel.length = idxs.length
  ∧ ∀ i : Nat, sel[i]? = idxs[i]?.bind (fun o => rows[o]?) := by
  induction idxs generalizing sel with
  | nil =>
    simp only [selectRows, Option.some.injEq] at h
    subst h
    simp
  | cons j t ih =>
    unfold selectRows at h
    cases hx : rows[j]? with
    | none => rw [hx] at h; exact absurd h (by simp)
    | some x =>
      rw [hx] at h
      cases hs2 : selectRows t rows with
      | none => rw [hs2] at h; exact absurd h (by simp)
      | some s2 =>
        rw [hs2] at h
        simp only [Option.some.injEq] at h
        subst h
        have ihh := ih s2 hs2
        refine ⟨by simp [ihh.1], ?_⟩
        intro i
        cases i with
        | zero => simp [hx]
        | succ n => simp [ihh.2 n]

/-- C7: on success, the result of `make_weather_call` is the fetched
forecast restricted to exactly the rows at the resolved day offsets (one
kept row per offset, in order), each kept row carrying the weekday name of
its own date, serialized as a record-oriented JSON array with ISO-formatted
dates. -/
theorem c7_success_filters_and_serializes (loc : Location) (now : Now)
    (rows : List Row) (days : List String) (offs : List Nat) (sel : List Row)
    (hres : resolveDays now days = (offs, []))
    (hne : offs ≠ [])
    (hsel : selectRows offs rows = some sel) :
    make_weather_call (.geoFound loc) now (fun _ => some rows) days
      = .json (serializeRecords (attachDOW sel))
  ∧ sel.length = offs.length
  ∧ (∀ i : Nat, sel[i]? = offs[i]?.bind (fun o => rows[o]?))
  ∧ (∀ r ∈ attachDOW sel, r.day_of_week = dayName (toOrdinal r.toRow.date % 7)) := by
  have hs := selectRows_spec offs rows sel hsel
  refine ⟨?_, hs.1, hs.2, ?_⟩
  · simp [make_weather_call, hres, hne, hsel]
  · intro r hr
    simp only [attachDOW, List.mem_map] at hr
    obtain ⟨r1, _, rfl⟩ := hr
    rfl

theorem c7_success_filters_and_serializes_witness :
    (resolveDays now0 ["monday"] = ([0], [])
     ∧ ([0] : List Nat) ≠ []
     ∧ selectRows [0] rows0 = some (rows0.take 1))
  ∧ (make_weather_call (.geoFound loc0) now0 (fun _ => some rows0) ["monday"]
      = .json (serializeRecords (attachDOW (rows0.take 1)))
  ∧ (rows0.take 1).length = ([0] : List Nat).length
  ∧ (∀ i : Nat, (rows0.take 1)[i]?
      = (([0] : List Nat)[i]?).bind (fun o => rows0[o]?))
  ∧ (∀ r ∈ attachDOW (rows0.take 1),
      r.day_of_week = dayName (toOrdinal r.toRow.date % 7))) :=
  ⟨⟨by decide, by decide, by decide⟩,
    c7_success_filters_and_serializes loc0 now0 rows0 ["monday"] [0] (rows0.take 1)
      (by decide) (by decide) (by decide)⟩

end WeatherChatbot
